import Mathlib

/-!
Shallow embedding of the four migration scripts of MILCGroup/Google-Drive-CLI
(fix_cli_imports.py, update_refs.py, fix_packages.py, move_and_update.py)
and proofs settling the specification claims about them.

Python strings are modelled as Lean `String`; every scanning function is
written by structural recursion on a fuel argument equal to the text length,
so that all definitions evaluate by `rfl` and `decide`.
-/

set_option maxRecDepth 100000

namespace Scripts

/-- Word characters in the sense of the regex classes `\w` and `\b`:
letters, digits and underscore. -/
def isWordChar (c : Char) : Bool := c.isAlphanum || c = '_'

/-- Boolean test that the first character list is a prefix of the second. -/
def prefChars : List Char → List Char → Bool
  | [], _ => true
  | _ :: _, [] => false
  | a :: as, b :: bs => a == b && prefChars as bs

/-- Drop a literal pattern from the front of a character list, returning the
remainder, or `none` when the pattern is not a prefix. -/
def dropPat : List Char → List Char → Option (List Char)
  | [], l => some l
  | _ :: _, [] => none
  | a :: as, b :: bs => if a == b then dropPat as bs else none

/-- Python's substring membership test (the `in` operator on `str`). -/
def containsChars (pat : List Char) : List Char → Bool
  | [] => prefChars pat []
  | c :: cs => prefChars pat (c :: cs) || containsChars pat cs

/-- Replace every leftmost, non-overlapping occurrence of a non-empty literal
pattern: the semantics of Python `str.replace` and of `re.sub` with a pattern
containing no metacharacters.  The fuel argument is the length of the text;
an empty pattern is treated as matching nothing (all patterns in the scripts
are non-empty). -/
def replChars (pat new : List Char) : Nat → List Char → List Char
  | _, [] => []
  | 0, l => l
  | fuel + 1, c :: cs =>
    if !pat.isEmpty && prefChars pat (c :: cs) then
      new ++ replChars pat new fuel ((c :: cs).drop pat.length)
    else
      c :: replChars pat new fuel cs

/-- Count the leftmost, non-overlapping occurrences of a non-empty literal
pattern, as Python `str.count` does. -/
def countChars (pat : List Char) : Nat → List Char → Nat
  | _, [] => 0
  | 0, _ => 0
  | fuel + 1, c :: cs =>
    if !pat.isEmpty && prefChars pat (c :: cs) then
      1 + countChars pat fuel ((c :: cs).drop pat.length)
    else
      countChars pat fuel cs

/-- Trailing `\b` test: when `rb` is set, the character following the match
(the head of `rest`) must be a non-word character, or the text must end. -/
def tailBoundary (rb : Bool) (rest : List Char) : Bool :=
  !rb || (match rest with
          | [] => true
          | d :: _ => !isWordChar d)

/-- Whether the last character of a list is a word character (`dflt` for the
empty list). -/
def lastIsWord (l : List Char) (dflt : Bool) : Bool :=
  match l.getLast? with
  | some x => isWordChar x
  | none => dflt

/-- Substitution for the update_refs.py patterns, each of the form
`\bLIT` or `\bLIT\b` for a literal `LIT` beginning with a word character.
`prevW` records whether the character before the scan position is a word
character (initially false: start of text), which decides the leading `\b`.
As in `re.sub`, matching is done against the original text left to right,
non-overlapping. -/
def subWBChars (lit new : List Char) (rb : Bool) : Nat → Bool → List Char → List Char
  | _, _, [] => []
  | 0, _, l => l
  | fuel + 1, prevW, c :: cs =>
    if !lit.isEmpty && !prevW && prefChars lit (c :: cs)
        && tailBoundary rb ((c :: cs).drop lit.length) then
      new ++ subWBChars lit new rb fuel (lastIsWord lit prevW) ((c :: cs).drop lit.length)
    else
      c :: subWBChars lit new rb fuel (isWordChar c) cs

/-- Longest run of word characters at the front of a list, with the rest:
the greedy `\w+` of the signature regex. -/
def takeWord : List Char → List Char × List Char
  | [] => ([], [])
  | c :: cs =>
    if isWordChar c then
      let p := takeWord cs
      (c :: p.1, p.2)
    else ([], c :: cs)

/-- Literal head of the signature pattern shared by fix_cli_imports.py and
update_refs.py. -/
def sigHead : List Char := "func (cmd *".data

/-- Literal tail of the signature pattern. -/
def sigTail : List Char := ") Run(globals *Globals)".data

/-- Tail of the signature replacement, with the qualified Globals type. -/
def sigNewTail : List Char := ") Run(globals *cli.Globals)".data

/-- Match the regex `func \(cmd \*(\w+)\) Run\(globals \*Globals\)` at the
current position, returning the captured word and the rest of the text.
Since `\w+` can never consume the following parenthesis, the greedy maximal
word run followed by the literal tail is exact. -/
def matchSig (l : List Char) : Option (List Char × List Char) :=
  match dropPat sigHead l with
  | none => none
  | some l1 =>
    let w := takeWord l1
    if w.1.isEmpty then none
    else
      match dropPat sigTail w.2 with
      | none => none
      | some l3 => some (w.1, l3)

/-- Apply the signature substitution everywhere (`re.sub` over the text). -/
def subSigChars : Nat → List Char → List Char
  | _, [] => []
  | 0, l => l
  | fuel + 1, c :: cs =>
    match matchSig (c :: cs) with
    | some (w, rest) => sigHead ++ w ++ sigNewTail ++ subSigChars fuel rest
    | none => c :: subSigChars fuel cs

/-- Regex token for the two fix_cli_imports.py patterns that contain a dot,
which in a Python regex matches any character except a newline. -/
inductive RTok where
  | lit (c : Char)
  | anyc

/-- Whether a regex token matches one character. -/
def rtokMatch : RTok → Char → Bool
  | RTok.lit c, d => c == d
  | RTok.anyc, d => d != '\n'

/-- Drop a token pattern from the front of a character list. -/
def dropRPat : List RTok → List Char → Option (List Char)
  | [], l => some l
  | _ :: _, [] => none
  | t :: ts, c :: cs => if rtokMatch t c then dropRPat ts cs else none

/-- Replace every leftmost, non-overlapping match of a non-empty token
pattern (`re.sub` with a literal-plus-dot pattern). -/
def subRChars (pat : List RTok) (new : List Char) : Nat → List Char → List Char
  | _, [] => []
  | 0, l => l
  | fuel + 1, c :: cs =>
    if pat.isEmpty then c :: cs
    else
      match dropRPat pat (c :: cs) with
      | some rest => new ++ subRChars pat new fuel rest
      | none => c :: subRChars pat new fuel cs

/-- Compile an ASCII pattern where every dot is the regex wildcard and every
other character is a literal. -/
def rtoksOfAscii (s : String) : List RTok :=
  s.data.map (fun c => if c = '.' then RTok.anyc else RTok.lit c)

/-- Split a character list into its lines (separator removed), as a Python
`re` MULTILINE scan sees them. -/
def splitLinesAux (acc : List Char) : List Char → List (List Char)
  | [] => [acc.reverse]
  | c :: cs => if c == '\n' then acc.reverse :: splitLinesAux [] cs else splitLinesAux (c :: acc) cs

/-- Rejoin lines with the newline separator. -/
def joinLines (ls : List (List Char)) : List Char :=
  List.intercalate ['\n'] ls

/-- String wrapper for `replChars` (Python `str.replace`). -/
def pyReplace (s old new : String) : String :=
  ⟨replChars old.data new.data s.data.length s.data⟩

/-- String wrapper for `containsChars` (Python `in`). -/
def pyContains (s pat : String) : Bool := containsChars pat.data s.data

/-- String wrapper for `countChars` (Python `str.count`). -/
def pyCount (s pat : String) : Nat := countChars pat.data s.data.length s.data

/-- String wrapper for `subWBChars`. -/
def pySubWB (s lit : String) (rb : Bool) (new : String) : String :=
  ⟨subWBChars lit.data new.data rb s.data.length false s.data⟩

/-- String wrapper for `subSigChars`. -/
def pySubSig (s : String) : String := ⟨subSigChars s.data.length s.data⟩

/-- String wrapper for `subRChars`. -/
def pySubR (s pat new : String) : String :=
  ⟨subRChars (rtoksOfAscii pat) new.data s.data.length s.data⟩

/-- Apply a function to every line of a string (MULTILINE whole-line `re.sub`). -/
def pyMapLines (f : String → String) (s : String) : String :=
  ⟨joinLines ((splitLinesAux [] s.data).map (fun l => (f ⟨l⟩).data))⟩

/-- Python `str.endswith`. -/
def strEndsWith (s suffix : String) : Bool :=
  prefChars suffix.data.reverse s.data.reverse

namespace FixCliImports

/-- Canonical aliased cli import line, the substring fix_cli_imports.py line 27
tests for (without the leading tab). -/
def cliImportLine : String := "cli \"github.com/dl-alexandre/gdrv/internal/cli\""

/-- Replacement text inserted for the pattern `import \(` by
fix_cli_imports.py lines 29-33 and update_refs.py lines 54-57. -/
def cliImportInsertion : String :=
  "import (\n\tcli \"github.com/dl-alexandre/gdrv/internal/cli\""

/-- Import-insertion stage of fix_file (fix_cli_imports.py lines 26-33):
when the aliased cli import is absent, insert it after every occurrence of
the text `import (`. -/
def fixImportStage (content : String) : String :=
  if pyContains content cliImportLine then content
  else pyReplace content "import (" cliImportInsertion

/-- Malformed-import fixups of fix_file (fix_cli_imports.py lines 35-44):
two regex substitutions whose patterns contain dots (regex wildcards). -/
def fixTcliStage (content : String) : String :=
  let c1 := pySubR content "tcli \"github.com/dl-alexandre/gdrv/internal/cli\""
      "\tcli \"github.com/dl-alexandre/gdrv/internal/cli\""
  pySubR c1 "\ntcli " "\n\tcli "

/-- Sequential replacement list of fix_file (fix_cli_imports.py lines 54-80),
applied with plain `str.replace` in list order. -/
def replacements : List (String × String) :=
  [("NewOutputWriter(", "cli.NewOutputWriter("),
   ("ResolveFileID(", "cli.ResolveFileID("),
   ("GetGlobalFlags()", "cli.GetGlobalFlags()"),
   ("GetLogger()", "cli.GetLogger()"),
   ("GetPathResolver(", "cli.GetPathResolver("),
   ("GetResolveOptions(", "cli.GetResolveOptions("),
   ("handleCLIError(", "cli.HandleCLIError("),
   ("convertDriveFile(", "cli.ConvertDriveFile("),
   ("isPath(", "cli.IsPath("),
   ("getConfigDir()", "cli.GetConfigDir()"),
   ("resolveTimeRange(", "cli.ResolveTimeRange("),
   ("splitCSV(", "cli.SplitCSV("),
   ("scopesForPreset(", "cli.ScopesForPreset("),
   ("resolveAuthScopes(", "cli.ResolveAuthScopes("),
   ("validateAdminScopesRequireImpersonation(", "cli.ValidateAdminScopesRequireImpersonation("),
   ("buildOAuthClientError(", "cli.BuildOAuthClientError("),
   ("oauthClientSource", "cli.OAuthClientSource"),
   ("oauthClientSourceFlags", "cli.OAuthClientSourceFlags"),
   ("oauthClientSourceEnv", "cli.OAuthClientSourceEnv"),
   ("oauthClientSourceConfig", "cli.OAuthClientSourceConfig"),
   ("oauthClientSourceBundled", "cli.OAuthClientSourceBundled"),
   ("isTruthyEnv(", "cli.IsTruthyEnv("),
   ("buildAuthFlowError(", "cli.BuildAuthFlowError("),
   ("oauthClientSecretHint(", "cli.OAuthClientSecretHint("),
   ("openBrowser(", "cli.OpenBrowser(")]

/-- Replacement stage of fix_file (fix_cli_imports.py lines 82-84). -/
def replStage (content : String) : String :=
  replacements.foldl (fun acc p => pyReplace acc p.1 p.2) content

/-- Content transformation performed by fix_file on a processed file: the
insertion of the cli import, malformed-import fixups, the Run-signature
regex (fix_cli_imports.py lines 47-52), then the sequential replacements. -/
def fixFileContent (content : String) : String :=
  replStage (pySubSig (fixTcliStage (fixImportStage content)))

/-- The whole of fix_file (fix_cli_imports.py lines 18-88): the guard at
lines 22-24 returns before writing for non-.go and _test.go paths, modelled
as `none` (no write); otherwise the rewritten content is written back. -/
def fix_file (filepath content : String) : Option String :=
  if !strEndsWith filepath ".go" || strEndsWith filepath "_test.go" then none
  else some (fixFileContent content)

/-- Filename filter of the directory walk (fix_cli_imports.py lines 93-96). -/
def walkAccept (filename : String) : Bool :=
  strEndsWith filename ".go" && !strEndsWith filename "_test.go"

end FixCliImports

namespace UpdateRefs

/-- Pattern list of update_refs.py lines 6-29: each entry is the literal body
of a `\b`-anchored regex, whether the pattern also ends in `\b`, and the
replacement. -/
def replacements : List (String × Bool × String) :=
  [("NewOutputWriter(", false, "base.NewOutputWriter("),
   ("handleCLIError(", false, "base.HandleCLIError("),
   ("convertDriveFile(", false, "base.ConvertDriveFile("),
   ("truncate(", false, "base.Truncate("),
   ("formatSize(", false, "base.FormatSize("),
   ("isPath(", false, "cli.IsPath("),
   ("getConfigDir()", false, "cli.GetConfigDir()"),
   ("resolveTimeRange(", false, "cli.ResolveTimeRange("),
   ("splitCSV(", false, "cli.SplitCSV("),
   ("scopesForPreset(", false, "cli.ScopesForPreset("),
   ("resolveAuthScopes(", false, "cli.ResolveAuthScopes("),
   ("validateAdminScopesRequireImpersonation(", false, "cli.ValidateAdminScopesRequireImpersonation("),
   ("buildOAuthClientError(", false, "cli.BuildOAuthClientError("),
   ("oauthClientSource", true, "cli.OAuthClientSource"),
   ("oauthClientSourceFlags", true, "cli.OAuthClientSourceFlags"),
   ("oauthClientSourceEnv", true, "cli.OAuthClientSourceEnv"),
   ("oauthClientSourceConfig", true, "cli.OAuthClientSourceConfig"),
   ("oauthClientSourceBundled", true, "cli.OAuthClientSourceBundled"),
   ("isTruthyEnv(", false, "cli.IsTruthyEnv("),
   ("buildAuthFlowError(", false, "cli.BuildAuthFlowError("),
   ("oauthClientSecretHint(", false, "cli.OAuthClientSecretHint("),
   ("openBrowser(", false, "cli.OpenBrowser(")]

/-- Per-file content transformation of update_refs.py lines 38-59: the
word-boundary substitutions in list order, the Run-signature regex, then the
guarded insertion of the aliased cli import. -/
def updateRefsContent (content : String) : String :=
  let c1 := replacements.foldl (fun acc t => pySubWB acc t.1 t.2.1 t.2.2) content
  let c2 := pySubSig c1
  if (pyContains c2 "cli.Globals" || pyContains c2 "cli.")
      && !pyContains c2 "\"github.com/dl-alexandre/gdrv/internal/cli\""
      && pyContains c2 "import (" then
    pyReplace c2 "import (" FixCliImports.cliImportInsertion
  else c2

end UpdateRefs

/-- Quoted base import path inserted by fix_packages.py and
move_and_update.py. -/
def basePathStr : String := "github.com/dl-alexandre/gdrv/internal/cli/base"

/-- Replacement text for the block-form base import insertion. -/
def baseImportInsertion : String :=
  "import (\n\t\"github.com/dl-alexandre/gdrv/internal/cli/base\""

/-- Match the MULTILINE regex line `^import "([^"]+)"$`, returning the
captured path. -/
def matchSingleImport (l : List Char) : Option (List Char) :=
  match dropPat "import \"".data l with
  | none => none
  | some r =>
    let sp := r.span (fun c => c != '"')
    if sp.1.isEmpty then none
    else if sp.2 == ['"'] then some sp.1 else none

/-- Replacement for a matched single-line import: promote it to block form
with the base import first (fix_packages.py lines 40-45, move_and_update.py
lines 82-88). -/
def singleImportRepl (x : List Char) : List Char :=
  "import (\n\t\"github.com/dl-alexandre/gdrv/internal/cli/base\"\n\t\"".data ++ x ++ "\"\n)".data

/-- Line-wise form of the single-import promotion. -/
def singleImportSubLine (l : List Char) : List Char :=
  match matchSingleImport l with
  | some x => singleImportRepl x
  | none => l

/-- The MULTILINE `re.sub` promoting a one-line import to block form. -/
def pySingleImportSub (s : String) : String :=
  ⟨joinLines ((splitLinesAux [] s.data).map singleImportSubLine)⟩

/-- Base-import insertion shared by fix_packages.py lines 33-46 and
move_and_update.py lines 75-88: if the text `import (` occurs, insert the
base import after every occurrence, otherwise promote a single-line import. -/
def ensureBaseImport (content : String) : String :=
  if pyContains content "import (" then pyReplace content "import (" baseImportInsertion
  else pySingleImportSub content

namespace FixPackages

/-- Package-clause stage of fix_packages.py lines 29-30: the regex
`^package \w+` compiled WITHOUT re.MULTILINE, so `^` anchors only at the
very start of the file content. -/
def pkgStage (pkg content : String) : String :=
  match dropPat "package ".data content.data with
  | none => content
  | some r =>
    let w := takeWord r
    if w.1.isEmpty then content else ⟨"package ".data ++ pkg.data ++ w.2⟩

/-- Per-file content transformation of fix_packages.py lines 26-46: the
anchored package rewrite, then the base import insertion guarded by the
absence of the base path. -/
def fixPackagesContent (pkg content : String) : String :=
  let c1 := pkgStage pkg content
  if pyContains c1 basePathStr then c1 else ensureBaseImport c1

end FixPackages

namespace MoveAndUpdate

/-- Hardcoded file mapping of move_and_update.py lines 6-54, in the
source's insertion order. -/
def file_mapping : List (String × String) :=
  [("files.go", "drive"),
   ("folders.go", "drive"),
   ("drives.go", "drive"),
   ("permissions.go", "drive"),
   ("changes.go", "drive"),
   ("labels.go", "drive"),
   ("sheets.go", "workspace"),
   ("docs.go", "workspace"),
   ("slides.go", "workspace"),
   ("forms.go", "workspace"),
   ("appscript.go", "workspace"),
   ("admin.go", "admin"),
   ("iamadmin.go", "admin"),
   ("groups.go", "admin"),
   ("chat.go", "chat"),
   ("gmail.go", "gmail"),
   ("people.go", "people"),
   ("calendar.go", "calendar"),
   ("tasks.go", "calendar"),
   ("meet.go", "calendar"),
   ("activity.go", "activity"),
   ("sync.go", "sync"),
   ("auth.go", "system"),
   ("config.go", "system"),
   ("about.go", "system"),
   ("completion.go", "system"),
   ("ai.go", "system"),
   ("cloudlogging.go", "system"),
   ("monitoring.go", "system"),
   ("sheets_test.go", "workspace"),
   ("docs_test.go", "workspace"),
   ("slides_test.go", "workspace"),
   ("admin_test.go", "admin"),
   ("auth_error_test.go", "system"),
   ("parse_test.go", "system"),
   ("config_parse_bool_test.go", "system")]

/-- Package-clause stage of move_and_update.py lines 72-73: the regex
`^package cli$` WITH re.MULTILINE, i.e. every line exactly equal to
`package cli` is rewritten. -/
def pkgStage (pkg content : String) : String :=
  pyMapLines (fun l => if l = "package cli" then "package " ++ pkg else l) content

/-- Shared-utility replacement list of move_and_update.py lines 91-95,
applied with plain `str.replace`. -/
def replacements : List (String × String) :=
  [("NewOutputWriter(", "base.NewOutputWriter("),
   ("handleCLIError(", "base.HandleCLIError("),
   ("convertDriveFile(", "base.ConvertDriveFile("),
   ("truncate(", "base.Truncate("),
   ("formatSize(", "base.FormatSize(")]

/-- Per-unit content transformation of move_and_update.py lines 66-95:
package rewrite, unguarded base import insertion, then the replacements. -/
def moveTransform (pkg content : String) : String :=
  let c1 := pkgStage pkg content
  let c2 := ensureBaseImport c1
  replacements.foldl (fun acc p => pyReplace acc p.1 p.2) c2

end MoveAndUpdate

/-- Filesystem model: an association list from paths to file contents; the
first binding of a path is its current content. -/
abbrev FS := List (String × String)

/-- Read a file from the filesystem model. -/
def fsRead : FS → String → Option String
  | [], _ => none
  | (q, c) :: t, p => if p = q then some c else fsRead t p

/-- Write a file (create or shadow an existing binding). -/
def fsWrite (fs : FS) (p c : String) : FS := (p, c) :: fs

/-- Remove every binding of a path (os.remove). -/
def fsRemove : FS → String → FS
  | [], _ => []
  | e :: t, p => if e.1 = p then fsRemove t p else e :: fsRemove t p

/-- Source path of a mapped file (move_and_update.py line 60). -/
def srcPath (fn : String) : String := "internal/cli/" ++ fn

/-- Destination path of a mapped file (move_and_update.py lines 61-62). -/
def dstPath (fn pkg : String) : String := "internal/cli/" ++ pkg ++ "/" ++ fn

/-- One iteration of the move loop of move_and_update.py lines 59-102: if
the source exists, transform its content, write the destination, then remove
the original. -/
def moveStep (fs : FS) (e : String × String) : FS :=
  match fsRead fs (srcPath e.1) with
  | none => fs
  | some content =>
    fsRemove (fsWrite fs (dstPath e.1 e.2) (MoveAndUpdate.moveTransform e.2 content)) (srcPath e.1)

/-- The whole move loop over the hardcoded mapping. -/
def runMove (fs : FS) : FS := MoveAndUpdate.file_mapping.foldl moveStep fs

/-- Outcome of the destination write, supplied by the environment: `ok s`
means the write call returned without raising and `s` is what actually
landed on disk; `err d` means the write raised, with `d` the partially
written destination content, if any. -/
inductive WriteOutcome where
  | ok (stored : String)
  | err (onDisk : Option String)

/-- One iteration of the move loop with the destination write modelled
explicitly (move_and_update.py lines 97-102): `os.remove(src)` runs exactly
when the write call raised no exception; a raising write propagates
(Except.error) with the source untouched.  No read-back of the destination
is performed anywhere in the source. -/
def relocateStep (we : String → WriteOutcome) (fs : FS) (fn pkg : String) : Except FS FS :=
  match fsRead fs (srcPath fn) with
  | none => Except.ok fs
  | some content =>
    match we (MoveAndUpdate.moveTransform pkg content) with
    | WriteOutcome.ok stored =>
      Except.ok (fsRemove (fsWrite fs (dstPath fn pkg) stored) (srcPath fn))
    | WriteOutcome.err (some d) => Except.error (fsWrite fs (dstPath fn pkg) d)
    | WriteOutcome.err none => Except.error fs

/-- Reading the path just written returns the written content. -/
theorem fsRead_write_self (fs : FS) (p c : String) :
    fsRead (fsWrite fs p c) p = some c := by
  simp [fsWrite, fsRead]

/-- Writing one path does not change reads of another path. -/
theorem fsRead_write_ne (fs : FS) (p c q : String) (h : q ≠ p) :
    fsRead (fsWrite fs p c) q = fsRead fs q := by
  simp [fsWrite, fsRead, h]

/-- After removal, the removed path reads as absent. -/
theorem fsRead_remove_self (fs : FS) (p : String) :
    fsRead (fsRemove fs p) p = none := by
  induction fs with
  | nil => rfl
  | cons e t ih =>
    obtain ⟨a, b⟩ := e
    by_cases h : a = p
    · simpa [fsRemove, h] using ih
    · have h2 : p ≠ a := fun hh => h hh.symm
      simpa [fsRemove, h, fsRead, h2] using ih

/-- Removing one path does not change reads of another path. -/
theorem fsRead_remove_ne (fs : FS) (p q : String) (h : q ≠ p) :
    fsRead (fsRemove fs p) q = fsRead fs q := by
  induction fs with
  | nil => rfl
  | cons e t ih =>
    obtain ⟨a, b⟩ := e
    by_cases ha : a = p
    · simpa [fsRemove, ha, fsRead, h] using ih
    · by_cases hq : q = a
      · simp [fsRemove, ha, fsRead, hq]
      · simpa [fsRemove, ha, fsRead, hq] using ih

/-- A path that is neither the source nor the destination of a mapping entry
is untouched by one iteration of the move loop. -/
theorem moveStep_frame (fs : FS) (e : String × String) (p : String)
    (h1 : p ≠ srcPath e.1) (h2 : p ≠ dstPath e.1 e.2) :
    fsRead (moveStep fs e) p = fsRead fs p := by
  unfold moveStep
  cases hr : fsRead fs (srcPath e.1) with
  | none => rfl
  | some c =>
    rw [fsRead_remove_ne _ _ _ h1, fsRead_write_ne _ _ _ _ h2]

/-- A path that is neither a source nor a destination of any entry of a
mapping list is untouched by folding the move loop over that list. -/
theorem foldl_moveStep_frame (l : List (String × String)) (fs : FS) (p : String)
    (hp : ∀ e ∈ l, p ≠ srcPath e.1 ∧ p ≠ dstPath e.1 e.2) :
    fsRead (l.foldl moveStep fs) p = fsRead fs p := by
  induction l generalizing fs with
  | nil => rfl
  | cons e t ih =>
    have he := hp e (by simp)
    rw [List.foldl_cons, ih _ (fun x hx => hp x (by simp [hx])),
      moveStep_frame fs e p he.1 he.2]

/-- Proper-prefix test on strings: a prefix of different (hence smaller)
length. -/
def isProperPrefixStr (s t : String) : Bool :=
  prefChars s.data t.data && s.data.length != t.data.length

/-- The mapping relation of the scripts binds one symbol to two different
qualifying packages: some source pattern is rewritten one way by the
fix_cli_imports replacement list and another way by the move_and_update
replacement list. -/
def mappingConflict : Prop :=
  ∃ p q r, (p, q) ∈ FixCliImports.replacements ∧
    (p, r) ∈ MoveAndUpdate.replacements ∧ q ≠ r

/-- Unit with an import block that already contains the base import,
the state every migrated unit is in when move_and_update logic reruns. -/
def c6Unit : String :=
  "package cli\n\nimport (\n\t\"github.com/dl-alexandre/gdrv/internal/cli/base\"\n\t\"fmt\"\n)\n\nfunc run()\n"

/-- Quoted base import path, the ImportSpec whose uniqueness claim C6 asserts. -/
def basePathQuoted : String := "\"github.com/dl-alexandre/gdrv/internal/cli/base\""

/-- Unit with an ordinary import block and no cli import yet. -/
def c6FixUnit : String := "package drive\n\nimport (\n\t\"fmt\"\n)\n"

/-- Tree in which the destination of files.go already exists with different
content. -/
def c7FS : FS :=
  [("internal/cli/files.go", "package cli\nfunc a()\n"),
   ("internal/cli/drive/files.go", "package drive\nfunc old()\n")]

/-- Unit whose package clause is preceded by a comment line. -/
def c8Unit : String := "// Package docs\npackage cli\n\nfunc doc()\n"

/-- Tree holding a mapped source plus a pre-existing file at its nested
destination directory. -/
def c10FS : FS :=
  [("internal/cli/sheets.go", "package cli\nfunc s()\n"),
   ("internal/cli/workspace/sheets.go", "PREEXISTING")]

/-- Claim C1 counterexample: the pipeline is not idempotent.  Applying the
fix_file content rewrite a second time to the output of a first run changes
the text again (the plain substring replacement re-matches inside the
already-qualified call), so the second run is not a no-op. -/
theorem c1_second_pass_changes_text :
    FixCliImports.fixFileContent (FixCliImports.fixFileContent "NewOutputWriter(gf)\n") ≠
      FixCliImports.fixFileContent "NewOutputWriter(gf)\n" := by decide

/-- Claim C1 amended: a second run re-applies qualifying prefixes instead of
being a no-op.  The fix_cli_imports replacement list double-qualifies an
already-qualified call, and the update_refs word-boundary patterns re-match
after the dot of the qualifier, double-qualifying as well. -/
theorem c1_second_pass_requalifies :
    FixCliImports.fixFileContent (FixCliImports.fixFileContent "NewOutputWriter(\n") =
        "cli.cli.NewOutputWriter(\n" ∧
    UpdateRefs.updateRefsContent (UpdateRefs.updateRefsContent "NewOutputWriter(\n") =
        "base.base.NewOutputWriter(\n" :=
  ⟨by decide, by decide⟩

/-- Claim C2 counterexample: an occurrence of a mapped symbol lying inside a
comment span is NOT left unchanged: fix_file rewrites it (to
// cli.NewOutputWriter(x)), contradicting the skip conditions of the claim. -/
theorem c2_comment_occurrence_rewritten :
    FixCliImports.fixFileContent "// NewOutputWriter(x)\n" ≠ "// NewOutputWriter(x)\n" := by
  decide

/-- Claim C2 amended: the rewrite replaces every textual occurrence of a
mapped pattern unconditionally: occurrences inside comment spans and string
literals, occurrences already preceded by the qualifying prefix (which become
double-qualified) and declaration sites are all rewritten. -/
theorem c2_qualifier_rewrites_unconditionally :
    FixCliImports.fixFileContent "// NewOutputWriter(\n" = "// cli.NewOutputWriter(\n" ∧
    FixCliImports.fixFileContent "s := \"NewOutputWriter(\"\n" = "s := \"cli.NewOutputWriter(\"\n" ∧
    FixCliImports.fixFileContent "cli.NewOutputWriter(\n" = "cli.cli.NewOutputWriter(\n" ∧
    FixCliImports.fixFileContent "func NewOutputWriter(w io.Writer) T\n" =
      "func cli.NewOutputWriter(w io.Writer) T\n" :=
  ⟨by decide, by decide, by decide, by decide⟩

/-- Claim C3 counterexample: it is false that whenever one mapped symbol is a
textual prefix of another, the longer one is processed first: in the
fix_cli_imports replacement list the shorter symbol oauthClientSource (index
16) precedes its extension oauthClientSourceFlags (index 17). -/
theorem c3_shorter_symbol_precedes_longer :
    ¬ (∀ i, i < FixCliImports.replacements.length →
        ∀ j, j < FixCliImports.replacements.length →
        isProperPrefixStr ((FixCliImports.replacements.getD i ("", "")).1)
          ((FixCliImports.replacements.getD j ("", "")).1) = true →
        j < i) := by decide

/-- Claim C3 amended: the shorter symbol precedes the longer in both
replacement lists, yet an occurrence of the longer name still ends up
qualified as a single unit and is never split: in fix_cli_imports the shorter
rule rewrites the shared prefix in place (yielding the correctly qualified
longer identifier), and in update_refs the trailing word-boundary prevents
the shorter pattern from matching inside the longer identifier. -/
theorem c3_long_symbol_qualified_as_unit :
    FixCliImports.fixFileContent "x := oauthClientSourceFlags\n" =
        "x := cli.OAuthClientSourceFlags\n" ∧
    UpdateRefs.updateRefsContent "x := oauthClientSourceFlags\n" =
        "x := cli.OAuthClientSourceFlags\n" :=
  ⟨by decide, by decide⟩

/-- Claim C4 counterexample: the mapping does bind one symbol to two
different qualifying packages, yet no run fails before units are modified:
fix_file still rewrites unit content, refuting the claimed ConfigError
behaviour. -/
theorem c4_no_confighalt_on_conflict :
    ¬ (mappingConflict → ∀ c, FixCliImports.fixFileContent c = c) := by
  intro h
  have hc : mappingConflict :=
    ⟨"NewOutputWriter(", "cli.NewOutputWriter(", "base.NewOutputWriter(",
      by decide, by decide, by decide⟩
  have h2 := h hc "NewOutputWriter(a)\n"
  have h3 : FixCliImports.fixFileContent "NewOutputWriter(a)\n" =
      "cli.NewOutputWriter(a)\n" := by decide
  exact absurd (h3.symm.trans h2) (by decide)

/-- Claim C4 amended: no load-time validation exists.  The hardcoded lists
bind the same symbol NewOutputWriter to the cli package in fix_cli_imports
and to the base package in move_and_update, and each script nevertheless
rewrites unit content unconditionally. -/
theorem c4_conflicting_bindings_both_applied :
    mappingConflict ∧
    FixCliImports.fixFileContent "NewOutputWriter(w)\n" = "cli.NewOutputWriter(w)\n" ∧
    MoveAndUpdate.moveTransform "drive" "NewOutputWriter(w)\n" = "base.NewOutputWriter(w)\n" :=
  ⟨⟨"NewOutputWriter(", "cli.NewOutputWriter(", "base.NewOutputWriter(",
      by decide, by decide, by decide⟩, by decide, by decide⟩

/-- Claim C5 counterexample: the original is deleted with no read-back
equality check.  With a write environment that reports success but stores
different bytes, the loop still removes the source file even though the
destination content differs from what was written. -/
theorem c5_deleted_without_readback :
    relocateStep (fun _ => WriteOutcome.ok "CORRUPT")
        [("internal/cli/files.go", "x")] "files.go" "drive" =
      Except.ok [("internal/cli/drive/files.go", "CORRUPT")] ∧
    "CORRUPT" ≠ MoveAndUpdate.moveTransform "drive" "x" :=
  ⟨rfl, by decide⟩

/-- Claim C5 amended: the original file is preserved whenever the write call
raises; when the write call returns without raising the original is deleted
immediately, with no read-back comparison of the destination content. -/
theorem c5_failed_write_preserves_original (we : String → WriteOutcome) (fs fs2 : FS)
    (fn pkg : String) (hne : dstPath fn pkg ≠ srcPath fn)
    (herr : relocateStep we fs fn pkg = Except.error fs2) :
    fsRead fs2 (srcPath fn) = fsRead fs (srcPath fn) := by
  cases hr : fsRead fs (srcPath fn) with
  | none => simp [relocateStep, hr] at herr
  | some c =>
    cases hwe : we (MoveAndUpdate.moveTransform pkg c) with
    | ok s => simp [relocateStep, hr, hwe] at herr
    | err d =>
      cases d with
      | none =>
        simp [relocateStep, hr, hwe] at herr
        subst herr
        exact hr
      | some d0 =>
        simp [relocateStep, hr, hwe] at herr
        subst herr
        rw [fsRead_write_ne _ _ _ _ (Ne.symm hne)]
        exact hr

set_option maxRecDepth 8000 in
/-- Claim C5 witness: concrete failed write, with the original intact. -/
theorem c5_failed_write_preserves_original_witness :
    fsRead [("internal/cli/system/auth.go", "junk"), ("internal/cli/auth.go", "a")]
        (srcPath "auth.go") =
      fsRead [("internal/cli/auth.go", "a")] (srcPath "auth.go") :=
  c5_failed_write_preserves_original (fun _ => WriteOutcome.err (some "junk"))
    [("internal/cli/auth.go", "a")]
    [("internal/cli/system/auth.go", "junk"), ("internal/cli/auth.go", "a")]
    "auth.go" "system" (by decide) (by rfl)

/-- Claim C6 counterexample: reconciling a unit whose import block already
contains the base import duplicates it: move_and_update inserts the base
one unguarded, so after the transform the import path occurs twice. -/
theorem c6_base_import_duplicated :
    pyCount c6Unit basePathQuoted = 1 ∧
    pyCount (MoveAndUpdate.moveTransform "drive" c6Unit) basePathQuoted = 2 :=
  ⟨by decide, by decide⟩

/-- Claim C6 amended: the fix_cli_imports insertion is guarded by a substring
test, so for a unit with a single import block it adds exactly one aliased
cli import and a repeated application is a no-op; the base insertion of
move_and_update has no such guard and can duplicate an import path. -/
theorem c6_cli_import_inserted_once :
    pyCount (FixCliImports.fixImportStage c6FixUnit) FixCliImports.cliImportLine = 1 ∧
    FixCliImports.fixImportStage (FixCliImports.fixImportStage c6FixUnit) =
      FixCliImports.fixImportStage c6FixUnit :=
  ⟨by decide, by decide⟩

/-- Claim C7 counterexample: a destination that already exists with
different content is silently overwritten by the move loop instead of the
run failing with a conflict. -/
theorem c7_destination_overwritten :
    fsRead c7FS "internal/cli/drive/files.go" = some "package drive\nfunc old()\n" ∧
    fsRead (runMove c7FS) "internal/cli/drive/files.go" = some "package drive\nfunc a()\n" :=
  ⟨by decide, by decide⟩

/-- Claim C7 amended: whenever the source of a mapped unit exists, the
destination path receives the transformed source content unconditionally,
overwriting whatever was there; no conflict check is performed. -/
theorem c7_existing_destination_overwritten (fs : FS) (fn pkg c : String)
    (hsrc : fsRead fs (srcPath fn) = some c) (hne : dstPath fn pkg ≠ srcPath fn) :
    fsRead (moveStep fs (fn, pkg)) (dstPath fn pkg) =
      some (MoveAndUpdate.moveTransform pkg c) := by
  simp only [moveStep, hsrc]
  rw [fsRead_remove_ne _ _ _ hne]
  exact fsRead_write_self fs (dstPath fn pkg) (MoveAndUpdate.moveTransform pkg c)

/-- Claim C7 witness: concrete tree whose destination pre-exists. -/
theorem c7_existing_destination_overwritten_witness :
    fsRead (moveStep [("internal/cli/chat.go", "package cli\n"),
        ("internal/cli/chat/chat.go", "OLD")] ("chat.go", "chat"))
      (dstPath "chat.go" "chat") = some (MoveAndUpdate.moveTransform "chat" "package cli\n") :=
  c7_existing_destination_overwritten _ "chat.go" "chat" "package cli\n" (by rfl) (by decide)

/-- Claim C8 (code bug): fix_packages compiles its package regex without
re.MULTILINE, so the anchor only matches at the very start of the file; a
unit whose package clause is preceded by a comment line keeps its old
package name, while the MULTILINE version in move_and_update rewrites the
same unit as intended. -/
theorem c8_comment_preceded_clause_not_rewritten :
    FixPackages.fixPackagesContent "workspace" c8Unit = c8Unit ∧
    MoveAndUpdate.pkgStage "workspace" c8Unit =
      "// Package docs\npackage workspace\n\nfunc doc()\n" :=
  ⟨by decide, by decide⟩

/-- Claim C9: for every path ending in _test.go, fix_file returns before
writing (modelled as none) and the directory walk filter rejects the name,
so such files are left unchanged. -/
theorem c9_test_files_untouched (p c : String) (h : strEndsWith p "_test.go" = true) :
    FixCliImports.fix_file p c = none ∧ FixCliImports.walkAccept p = false := by
  unfold FixCliImports.fix_file FixCliImports.walkAccept
  rw [h]
  simp

/-- Claim C9 witness: a concrete test file is skipped. -/
theorem c9_test_files_untouched_witness :
    FixCliImports.fix_file "files_test.go" "package cli\n" = none ∧
    FixCliImports.walkAccept "files_test.go" = false :=
  c9_test_files_untouched _ _ (by decide)

/-- Claim C10 counterexample: a file that does not live directly under
internal/cli (here a pre-existing file in a destination directory) is
nevertheless modified by the move loop, because destinations are written
unconditionally. -/
theorem c10_nested_file_modified :
    fsRead (runMove c10FS) "internal/cli/workspace/sheets.go" ≠ some "PREEXISTING" := by
  decide

/-- Claim C10 amended: every path that is neither a mapped source path
internal/cli/k for a mapping key k, nor a mapped destination path
internal/cli/pkg/k, is left unchanged by the whole move loop; destination
paths themselves may be created or overwritten. -/
theorem c10_unmapped_paths_untouched (fs : FS) (p : String)
    (hp : ∀ e ∈ MoveAndUpdate.file_mapping, p ≠ srcPath e.1 ∧ p ≠ dstPath e.1 e.2) :
    fsRead (runMove fs) p = fsRead fs p :=
  foldl_moveStep_frame MoveAndUpdate.file_mapping fs p hp

/-- Claim C10 witness: a path outside internal/cli is untouched. -/
theorem c10_unmapped_paths_untouched_witness :
    fsRead (runMove [("cmd/main.go", "x")]) "cmd/main.go" =
      fsRead [("cmd/main.go", "x")] "cmd/main.go" :=
  c10_unmapped_paths_untouched _ _ (by decide)

end Scripts
